import Mathlib

/-!
Verification of the version codec and job-queue vocabulary of
`lib/constants.py` (ganeti).  The two codec functions `BuildVersion` and
`SplitVersion` are embedded directly from the Python source; Python integers
are modelled as `Int`, and Python's `divmod` (floor division, raising on a
zero divisor) is modelled by `pydivmod` returning `Option`.
-/

/-- Python `divmod(a, b)`: floor division and floor remainder, failing
(`ZeroDivisionError`) when the divisor is zero. -/
def pydivmod (a b : Int) : Option (Int × Int) :=
  if b = 0 then none else some (a.fdiv b, a.fmod b)

/-- Embedded from `lib/constants.py`, `BuildVersion`: calculates the int
version number from major, minor and revision numbers.  The Python body is
`return (1000000 * major + 10000 * minor + 1 * revision)`; the only
checks in the source are `isinstance(..., int)` asserts, which cannot fire
for integer inputs. -/
def BuildVersion (major minor revision : Int) : Int :=
  1000000 * major + 10000 * minor + 1 * revision

/-- Embedded from `lib/constants.py`, `SplitVersion`: splits a version number
stored in an int via `divmod(version, 1000000)` then `divmod(remainder, 10000)`,
returning the tuple `(major, minor, revision)`. -/
def SplitVersion (version : Int) : Option (Int × Int × Int) :=
  match pydivmod version 1000000 with
  | none => none
  | some (major, remainder) =>
    match pydivmod remainder 10000 with
    | none => none
    | some (minor, revision) => some (major, minor, revision)

/-! Job-queue vocabulary, embedded from the `# Job queue`, `# Job status` and
`# OpCode status` sections of `lib/constants.py`.  Statuses are the string
constants of the source. -/

def JOB_QUEUE_SIZE_HARD_LIMIT : Nat := 5000

/-- Embedded from `JOB_QUEUE_SIZE_SOFT_LIMIT = JOB_QUEUE_SIZE_HARD_LIMIT *
0.8`; the Python multiplication by the float literal `0.8` is modelled
exactly in `ℚ` (for these operands the IEEE double product is also exactly
4000). -/
def JOB_QUEUE_SIZE_SOFT_LIMIT : ℚ := (JOB_QUEUE_SIZE_HARD_LIMIT : ℚ) * (8 / 10)

def JOB_STATUS_QUEUED : String := "queued"

def JOB_STATUS_WAITLOCK : String := "waiting"

def JOB_STATUS_CANCELING : String := "canceling"

def JOB_STATUS_RUNNING : String := "running"

def JOB_STATUS_CANCELED : String := "canceled"

def JOB_STATUS_SUCCESS : String := "success"

def JOB_STATUS_ERROR : String := "error"

def OP_STATUS_QUEUED : String := "queued"

def OP_STATUS_WAITLOCK : String := "waiting"

def OP_STATUS_CANCELING : String := "canceling"

def OP_STATUS_RUNNING : String := "running"

def OP_STATUS_CANCELED : String := "canceled"

def OP_STATUS_SUCCESS : String := "success"

def OP_STATUS_ERROR : String := "error"

/-- Embedded from `OPS_FINALIZED = frozenset([OP_STATUS_CANCELED,
OP_STATUS_SUCCESS, OP_STATUS_ERROR])`; the frozenset is modelled by a list
whose membership is the set membership. -/
def OPS_FINALIZED : List String :=
  [OP_STATUS_CANCELED, OP_STATUS_SUCCESS, OP_STATUS_ERROR]

/-- Programming-error-class failure raised on an illegal status transition
(spec section 7: assertion-style, not user-facing). -/
inductive JqError where
  | programmingError
  deriving DecidableEq

/-- Modelled from the spec: the legal status transitions of spec section 4.3
for jobs and operations — `queued → waiting → running → success | error`,
with `canceling` reachable from `queued`, `waiting` or `running` and always
resolving to `canceled`.  The transition-enforcement code (the jqueue
module) is not part of the given source. -/
def legalTransitions : List (String × String) :=
  [(JOB_STATUS_QUEUED, JOB_STATUS_WAITLOCK),
   (JOB_STATUS_WAITLOCK, JOB_STATUS_RUNNING),
   (JOB_STATUS_RUNNING, JOB_STATUS_SUCCESS),
   (JOB_STATUS_RUNNING, JOB_STATUS_ERROR),
   (JOB_STATUS_QUEUED, JOB_STATUS_CANCELING),
   (JOB_STATUS_WAITLOCK, JOB_STATUS_CANCELING),
   (JOB_STATUS_RUNNING, JOB_STATUS_CANCELING),
   (JOB_STATUS_CANCELING, JOB_STATUS_CANCELED)]

/-- Modelled from the spec: the status-transition guard of the queue's
update operation (spec sections 4.3 and 7) — a transition is applied only
when the transition table allows it; anything else, in particular any
transition out of a finalized status, is rejected as a programming-error
failure rather than silently applied.  The update code itself (jqueue) is
not part of the given source. -/
def updateStatus (current requested : String) : Except JqError String :=
  if (current, requested) ∈ legalTransitions then Except.ok requested
  else Except.error JqError.programmingError

def isActiveOp (s : String) : Bool :=
  s == OP_STATUS_RUNNING || s == OP_STATUS_WAITLOCK

/-- Modelled from the spec: the job aggregate-status rule of spec section
4.3 — the job is `running` iff some op is `running` or `waiting`, `error`
when some op is `error`, `success` when all ops are `success`, `canceled`
when cancellation marked some op `canceled` and no op errored.  The
aggregation code (jqueue) is not part of the given source. -/
def calcJobStatus (ops : List String) : String :=
  if ops.any isActiveOp then JOB_STATUS_RUNNING
  else if ops.any (fun s => s == OP_STATUS_ERROR) then JOB_STATUS_ERROR
  else if ops.all (fun s => s == OP_STATUS_SUCCESS) then JOB_STATUS_SUCCESS
  else if ops.any (fun s => s == OP_STATUS_CANCELED) then JOB_STATUS_CANCELED
  else JOB_STATUS_QUEUED

/-- Outcome of the capacity check made by submit. -/
inductive SubmitCapacity where
  | accepted
  | acceptedWithWarning
  | rejectedFull
  deriving DecidableEq

/-- Modelled from the spec: the size-limit policy of spec sections 4.4 and
8 — submit rejects once the live job count reaches the hard limit, and
accepts while below it, emitting an advisory capacity warning from the soft
limit on.  The submit code (jqueue) is not part of the given source. -/
def checkQueueCapacity (live : Nat) : SubmitCapacity :=
  if JOB_QUEUE_SIZE_HARD_LIMIT ≤ live then SubmitCapacity.rejectedFull
  else if JOB_QUEUE_SIZE_SOFT_LIMIT ≤ (live : ℚ) then
    SubmitCapacity.acceptedWithWarning
  else SubmitCapacity.accepted

/-- State of the queue store: the serial counter, the live job records
(id paired with its ops' statuses) and the drain flag (presence of the
drain file). -/
structure QueueState where
  serial : Nat
  jobs : List (Nat × List String)
  drained : Bool
  deriving DecidableEq

/-- Submission errors of spec section 4.4. -/
inductive SubmitError where
  | queueDrained
  | queueFull
  | emptyOps
  deriving DecidableEq

/-- Modelled from the spec: the submit operation of spec section 4.4 — the
drain flag is checked first and a drained queue rejects with
`QueueDrainedError` before any state is touched; otherwise the next serial
ID is allocated and the job record persisted in `queued` status.  The
submit code (jqueue) is not part of the given source. -/
def submit (st : QueueState) (ops : List String) :
    Except SubmitError Nat × QueueState :=
  if st.drained then (Except.error SubmitError.queueDrained, st)
  else if ops.isEmpty then (Except.error SubmitError.emptyOps, st)
  else if JOB_QUEUE_SIZE_HARD_LIMIT ≤ st.jobs.length then
    (Except.error SubmitError.queueFull, st)
  else
    let jid := st.serial + 1
    (Except.ok jid,
     QueueState.mk jid ((jid, ops.map (fun _ => OP_STATUS_QUEUED)) :: st.jobs)
       st.drained)

lemma SplitVersion_eq (v : Int) :
    SplitVersion v =
      some (v.fdiv 1000000,
            (v.fmod 1000000).fdiv 10000,
            (v.fmod 1000000).fmod 10000) := by
  simp [SplitVersion, pydivmod]

lemma fdiv_eq_ediv_pos (a b : Int) (hb : 0 ≤ b) : a.fdiv b = a / b :=
  Int.fdiv_eq_ediv a hb

lemma fmod_eq_emod_pos (a b : Int) (hb : 0 ≤ b) : a.fmod b = a % b :=
  Int.fmod_eq_emod a hb

/-- C1: version-codec round trip — for every triple of non-negative
integers with `minor < 100` and `revision < 10000`, decoding the encoded
version returns exactly the original triple. -/
theorem c1_roundTrip (major minor revision : Int)
    (hmaj : 0 ≤ major) (hmin0 : 0 ≤ minor) (hmin : minor < 100)
    (hrev0 : 0 ≤ revision) (hrev : revision < 10000) :
    SplitVersion (BuildVersion major minor revision) =
      some (major, minor, revision) := by
  rw [SplitVersion_eq, BuildVersion]
  rw [fdiv_eq_ediv_pos _ _ (by norm_num), fmod_eq_emod_pos _ _ (by norm_num),
    fdiv_eq_ediv_pos _ _ (by norm_num), fmod_eq_emod_pos _ _ (by norm_num)]
  refine congrArg some ?_
  refine Prod.ext ?_ (Prod.ext ?_ ?_) <;> simp <;> omega

/-- Witness for C1 at the concrete triple (1, 3, 123). -/
theorem c1_roundTrip_witness :
    SplitVersion (BuildVersion 1 3 123) = some (1, 3, 123) :=
  c1_roundTrip 1 3 123 (by decide) (by decide) (by decide) (by decide)
    (by decide)

/-- C2 counterexample: with `minor = 100` (out of range) the encoder does
not fail — it returns the integer `1000000`, which moreover decodes to the
different triple `(1, 0, 0)`. -/
theorem c2_noRangeCheck_counterexample :
    BuildVersion 0 100 0 = 1000000 ∧
      SplitVersion (BuildVersion 0 100 0) = some (1, 0, 0) := by
  constructor
  · rfl
  · rw [SplitVersion_eq]; rfl

/-- C2 amended: the encoder performs no range validation.  For every integer
input triple — including triples with negative components or with
`revision ≥ 10000` — it returns the integer `1000000 * major + 10000 *
minor + revision` without failing; and for every triple with `0 ≤ major`,
`minor ≥ 100` and `0 ≤ revision < 10000` the out-of-range minor aliases
into the major field, so the returned integer no longer decodes to the
original triple. -/
theorem c2_noRangeCheck (major minor revision : Int)
    (hmaj : 0 ≤ major) (hmin : 100 ≤ minor)
    (hrev0 : 0 ≤ revision) (hrev : revision < 10000) :
    (∀ a b c : Int, BuildVersion a b c = 1000000 * a + 10000 * b + c) ∧
      SplitVersion (BuildVersion major minor revision) ≠
        some (major, minor, revision) := by
  constructor
  · intro a b c; unfold BuildVersion; ring
  · rw [SplitVersion_eq, BuildVersion]
    rw [fdiv_eq_ediv_pos _ _ (by norm_num), fmod_eq_emod_pos _ _ (by norm_num),
      fdiv_eq_ediv_pos _ _ (by norm_num), fmod_eq_emod_pos _ _ (by norm_num)]
    intro h
    rw [Option.some_inj] at h
    have h2 := congrArg (fun t : Int × Int × Int => t.2.1) h
    simp at h2
    omega

/-- Witness for C2's amended theorem at the concrete triple (0, 100, 0). -/
theorem c2_noRangeCheck_witness :
    (∀ a b c : Int, BuildVersion a b c = 1000000 * a + 10000 * b + c) ∧
      SplitVersion (BuildVersion 0 100 0) ≠ some (0, 100, 0) :=
  c2_noRangeCheck 0 100 0 (by decide) (by decide) (by decide) (by decide)

/-- C7: the decoder is total — for every non-negative integer it returns a
`(major, minor, revision)` triple and never fails. -/
theorem c7_splitVersion_total (v : Int) (hv : 0 ≤ v) :
    ∃ t : Int × Int × Int, SplitVersion v = some t :=
  ⟨_, SplitVersion_eq v⟩

/-- Witness for C7 at the concrete version integer 1030123. -/
theorem c7_splitVersion_total_witness :
    ∃ t : Int × Int × Int, SplitVersion 1030123 = some t :=
  c7_splitVersion_total 1030123 (by decide)

/-- C8: the encoding is order-preserving — for valid triples, lexicographic
order on the triples agrees with numeric order on the encoded integers. -/
theorem c8_orderPreserving (a b c a2 b2 c2 : Int)
    (ha : 0 ≤ a) (hb0 : 0 ≤ b) (hb : b < 100) (hc0 : 0 ≤ c) (hc : c < 10000)
    (ha2 : 0 ≤ a2) (hb20 : 0 ≤ b2) (hb2 : b2 < 100)
    (hc20 : 0 ≤ c2) (hc2 : c2 < 10000) :
    (a < a2 ∨ (a = a2 ∧ (b < b2 ∨ (b = b2 ∧ c ≤ c2)))) ↔
      BuildVersion a b c ≤ BuildVersion a2 b2 c2 := by
  unfold BuildVersion
  omega

/-- Witness for C8 at the concrete triples (1, 2, 3) and (1, 3, 0). -/
theorem c8_orderPreserving_witness :
    ((1 : Int) < 1 ∨ ((1 : Int) = 1 ∧ ((2 : Int) < 3 ∨ ((2 : Int) = 3 ∧ (3 : Int) ≤ 0)))) ↔
      BuildVersion 1 2 3 ≤ BuildVersion 1 3 0 :=
  c8_orderPreserving 1 2 3 1 3 0 (by decide) (by decide) (by decide)
    (by decide) (by decide) (by decide) (by decide) (by decide) (by decide)
    (by decide)

/-- C9: reverse round trip — for every non-negative integer `v`, re-encoding
the decoded triple reproduces `v` exactly. -/
theorem c9_reverseRoundTrip (v : Int) (hv : 0 ≤ v) (t : Int × Int × Int)
    (ht : SplitVersion v = some t) :
    BuildVersion t.1 t.2.1 t.2.2 = v := by
  rw [SplitVersion_eq, Option.some_inj] at ht
  subst ht
  unfold BuildVersion
  dsimp only
  rw [fdiv_eq_ediv_pos _ _ (by norm_num), fmod_eq_emod_pos _ _ (by norm_num),
    fdiv_eq_ediv_pos _ _ (by norm_num), fmod_eq_emod_pos _ _ (by norm_num)]
  omega

/-- Witness for C9 at the concrete version integer 20123456. -/
theorem c9_reverseRoundTrip_witness :
    BuildVersion (20, 12, 3456).1 (20, 12, 3456).2.1 (20, 12, 3456).2.2 =
      20123456 :=
  c9_reverseRoundTrip 20123456 (by decide) (20, 12, 3456)
    (by rw [SplitVersion_eq]; rfl)

/-- C10: decoded components are always in range — for every non-negative
integer `v`, the triple returned by the decoder satisfies `0 ≤ major`,
`0 ≤ minor < 100` and `0 ≤ revision < 10000`. -/
theorem c10_decodedInRange (v : Int) (hv : 0 ≤ v) (t : Int × Int × Int)
    (ht : SplitVersion v = some t) :
    0 ≤ t.1 ∧ (0 ≤ t.2.1 ∧ t.2.1 < 100) ∧ (0 ≤ t.2.2 ∧ t.2.2 < 10000) := by
  rw [SplitVersion_eq, Option.some_inj] at ht
  subst ht
  simp only
  rw [fdiv_eq_ediv_pos _ _ (by norm_num), fmod_eq_emod_pos _ _ (by norm_num),
    fdiv_eq_ediv_pos _ _ (by norm_num), fmod_eq_emod_pos _ _ (by norm_num)]
  omega

/-- Witness for C10 at the concrete version integer 987654321. -/
theorem c10_decodedInRange_witness :
    0 ≤ ((987, 65, 4321) : Int × Int × Int).1 ∧
      (0 ≤ ((987, 65, 4321) : Int × Int × Int).2.1 ∧
        ((987, 65, 4321) : Int × Int × Int).2.1 < 100) ∧
      (0 ≤ ((987, 65, 4321) : Int × Int × Int).2.2 ∧
        ((987, 65, 4321) : Int × Int × Int).2.2 < 10000) :=
  c10_decodedInRange 987654321 (by decide) (987, 65, 4321)
    (by rw [SplitVersion_eq]; rfl)

lemma calcJobStatus_running_iff (ops : List String) :
    calcJobStatus ops = JOB_STATUS_RUNNING ↔ ops.any isActiveOp = true := by
  unfold calcJobStatus
  cases h1 : ops.any isActiveOp
  · simp only [Bool.false_eq_true, if_false]
    split_ifs <;>
      simp [JOB_STATUS_ERROR, JOB_STATUS_SUCCESS, JOB_STATUS_CANCELED,
        JOB_STATUS_QUEUED, JOB_STATUS_RUNNING]
  · simp

lemma calcJobStatus_error_of (ops : List String)
    (h1 : ops.any isActiveOp = false)
    (h2 : ops.any (fun s => s == OP_STATUS_ERROR) = true) :
    calcJobStatus ops = JOB_STATUS_ERROR := by
  unfold calcJobStatus
  rw [h1, h2]
  simp

lemma calcJobStatus_success_iff (ops : List String) :
    calcJobStatus ops = JOB_STATUS_SUCCESS ↔
      ops.all (fun s => s == OP_STATUS_SUCCESS) = true := by
  unfold calcJobStatus
  cases h3 : ops.all (fun s => s == OP_STATUS_SUCCESS)
  · simp only [Bool.false_eq_true, if_false]
    split_ifs <;>
      simp [JOB_STATUS_ERROR, JOB_STATUS_SUCCESS, JOB_STATUS_CANCELED,
        JOB_STATUS_QUEUED, JOB_STATUS_RUNNING]
  · have hall := List.all_eq_true.mp h3
    have hact : ops.any isActiveOp = false := by
      rw [List.any_eq_false]
      intro x hx
      have hxs : x = OP_STATUS_SUCCESS := by simpa using hall x hx
      simp [isActiveOp, hxs, OP_STATUS_SUCCESS, OP_STATUS_RUNNING,
        OP_STATUS_WAITLOCK]
    have herr : ops.any (fun s => s == OP_STATUS_ERROR) = false := by
      rw [List.any_eq_false]
      intro x hx
      have hxs : x = OP_STATUS_SUCCESS := by simpa using hall x hx
      simp [hxs, OP_STATUS_SUCCESS, OP_STATUS_ERROR]
    rw [hact, herr]
    simp

lemma calcJobStatus_canceled_of (ops : List String)
    (h1 : ops.any isActiveOp = false)
    (h2 : ops.any (fun s => s == OP_STATUS_ERROR) = false)
    (h4 : ops.any (fun s => s == OP_STATUS_CANCELED) = true) :
    calcJobStatus ops = JOB_STATUS_CANCELED := by
  have h3 : ops.all (fun s => s == OP_STATUS_SUCCESS) = false := by
    obtain ⟨x, hx, hcx⟩ := List.any_eq_true.mp h4
    have hxc : x = OP_STATUS_CANCELED := by simpa using hcx
    rw [List.all_eq_false]
    exact ⟨x, hx, by simp [hxc, OP_STATUS_CANCELED, OP_STATUS_SUCCESS]⟩
  unfold calcJobStatus
  rw [h1, h2, h3, h4]
  simp

lemma calcJobStatus_canceled_iff (ops : List String) :
    calcJobStatus ops = JOB_STATUS_CANCELED ↔
      (ops.any isActiveOp = false ∧
        ops.any (fun s => s == OP_STATUS_ERROR) = false ∧
        ops.any (fun s => s == OP_STATUS_CANCELED) = true) := by
  constructor
  · intro h
    cases h1 : ops.any isActiveOp
    · cases h2 : ops.any (fun s => s == OP_STATUS_ERROR)
      · cases h4 : ops.any (fun s => s == OP_STATUS_CANCELED)
        · exfalso
          unfold calcJobStatus at h
          rw [h1, h2, h4] at h
          simp only [Bool.false_eq_true, if_false] at h
          split_ifs at h <;>
            simp_all [JOB_STATUS_SUCCESS, JOB_STATUS_QUEUED,
              JOB_STATUS_CANCELED]
        · exact ⟨rfl, rfl, rfl⟩
      · exfalso
        have herr := calcJobStatus_error_of ops h1 h2
        rw [h] at herr
        simp [JOB_STATUS_CANCELED, JOB_STATUS_ERROR] at herr
    · exfalso
      have hrun := (calcJobStatus_running_iff ops).mpr h1
      rw [h] at hrun
      simp [JOB_STATUS_CANCELED, JOB_STATUS_RUNNING] at hrun
  · rintro ⟨h1, h2, h4⟩
    exact calcJobStatus_canceled_of ops h1 h2 h4

/-- C3: terminal statuses are absorbing — the finalized set of the source is
exactly the statuses success, error and canceled, and the (spec-modelled)
update guard rejects every transition out of a finalized status as a
programming-error-class failure. -/
theorem c3_terminalAbsorbing (s t : String) (hs : s ∈ OPS_FINALIZED) :
    (s = JOB_STATUS_SUCCESS ∨ s = JOB_STATUS_ERROR ∨ s = JOB_STATUS_CANCELED) ∧
      JOB_STATUS_SUCCESS ∈ OPS_FINALIZED ∧
      JOB_STATUS_ERROR ∈ OPS_FINALIZED ∧
      JOB_STATUS_CANCELED ∈ OPS_FINALIZED ∧
      updateStatus s t = Except.error JqError.programmingError := by
  have hs3 : s = OP_STATUS_CANCELED ∨ s = OP_STATUS_SUCCESS ∨
      s = OP_STATUS_ERROR := by
    simpa [OPS_FINALIZED] using hs
  refine ⟨?_, by decide, by decide, by decide, ?_⟩
  · rcases hs3 with rfl | rfl | rfl <;>
      simp [OP_STATUS_CANCELED, OP_STATUS_SUCCESS, OP_STATUS_ERROR,
        JOB_STATUS_SUCCESS, JOB_STATUS_ERROR, JOB_STATUS_CANCELED]
  · rcases hs3 with rfl | rfl | rfl <;>
      simp [updateStatus, legalTransitions, Prod.mk.injEq,
        OP_STATUS_CANCELED, OP_STATUS_SUCCESS, OP_STATUS_ERROR,
        JOB_STATUS_QUEUED, JOB_STATUS_WAITLOCK, JOB_STATUS_RUNNING,
        JOB_STATUS_SUCCESS, JOB_STATUS_ERROR, JOB_STATUS_CANCELING,
        JOB_STATUS_CANCELED]

/-- Witness for C3 at the finalized status success and requested status
running. -/
theorem c3_terminalAbsorbing_witness :
    (JOB_STATUS_SUCCESS = JOB_STATUS_SUCCESS ∨
        JOB_STATUS_SUCCESS = JOB_STATUS_ERROR ∨
        JOB_STATUS_SUCCESS = JOB_STATUS_CANCELED) ∧
      JOB_STATUS_SUCCESS ∈ OPS_FINALIZED ∧
      JOB_STATUS_ERROR ∈ OPS_FINALIZED ∧
      JOB_STATUS_CANCELED ∈ OPS_FINALIZED ∧
      updateStatus JOB_STATUS_SUCCESS JOB_STATUS_RUNNING =
        Except.error JqError.programmingError :=
  c3_terminalAbsorbing JOB_STATUS_SUCCESS JOB_STATUS_RUNNING (by decide)

/-- C4: the job aggregate status is a pure function of the ops' statuses —
the job is running iff some op is running or waiting; it is error when some
op is error and none is still active; it is success iff all ops are
success; and it is canceled iff cancellation marked some op canceled while
no op is active or errored. -/
theorem c4_aggregateStatus (ops : List String) (hne : ops ≠ []) :
    (calcJobStatus ops = JOB_STATUS_RUNNING ↔ ops.any isActiveOp = true) ∧
      (ops.any isActiveOp = false →
        ops.any (fun s => s == OP_STATUS_ERROR) = true →
        calcJobStatus ops = JOB_STATUS_ERROR) ∧
      (calcJobStatus ops = JOB_STATUS_SUCCESS ↔
        ops.all (fun s => s == OP_STATUS_SUCCESS) = true) ∧
      (calcJobStatus ops = JOB_STATUS_CANCELED ↔
        (ops.any isActiveOp = false ∧
          ops.any (fun s => s == OP_STATUS_ERROR) = false ∧
          ops.any (fun s => s == OP_STATUS_CANCELED) = true)) :=
  ⟨calcJobStatus_running_iff ops,
   fun h1 h2 => calcJobStatus_error_of ops h1 h2,
   calcJobStatus_success_iff ops,
   calcJobStatus_canceled_iff ops⟩

/-- Witness for C4 at the concrete single-op job whose op succeeded. -/
theorem c4_aggregateStatus_witness :
    (calcJobStatus [OP_STATUS_SUCCESS] = JOB_STATUS_RUNNING ↔
        [OP_STATUS_SUCCESS].any isActiveOp = true) ∧
      ([OP_STATUS_SUCCESS].any isActiveOp = false →
        [OP_STATUS_SUCCESS].any (fun s => s == OP_STATUS_ERROR) = true →
        calcJobStatus [OP_STATUS_SUCCESS] = JOB_STATUS_ERROR) ∧
      (calcJobStatus [OP_STATUS_SUCCESS] = JOB_STATUS_SUCCESS ↔
        [OP_STATUS_SUCCESS].all (fun s => s == OP_STATUS_SUCCESS) = true) ∧
      (calcJobStatus [OP_STATUS_SUCCESS] = JOB_STATUS_CANCELED ↔
        ([OP_STATUS_SUCCESS].any isActiveOp = false ∧
          [OP_STATUS_SUCCESS].any (fun s => s == OP_STATUS_ERROR) = false ∧
          [OP_STATUS_SUCCESS].any (fun s => s == OP_STATUS_CANCELED) = true)) :=
  c4_aggregateStatus [OP_STATUS_SUCCESS] (by decide)

/-- C5: the hard limit on the live job count defaults to 5000, the soft
limit to exactly 80 percent of it (4000); the (spec-modelled) capacity
check rejects any live count at or above the hard limit and still accepts,
with a capacity warning, a live count exactly at the soft limit. -/
theorem c5_queueSizeLimits (n : Nat) (h : JOB_QUEUE_SIZE_HARD_LIMIT ≤ n) :
    JOB_QUEUE_SIZE_HARD_LIMIT = 5000 ∧
      JOB_QUEUE_SIZE_SOFT_LIMIT = 4000 ∧
      JOB_QUEUE_SIZE_SOFT_LIMIT =
        (JOB_QUEUE_SIZE_HARD_LIMIT : ℚ) * 80 / 100 ∧
      checkQueueCapacity n = SubmitCapacity.rejectedFull ∧
      checkQueueCapacity 4000 = SubmitCapacity.acceptedWithWarning ∧
      checkQueueCapacity 3999 = SubmitCapacity.accepted := by
  refine ⟨rfl, ?_, ?_, ?_, ?_, ?_⟩
  · norm_num [JOB_QUEUE_SIZE_SOFT_LIMIT, JOB_QUEUE_SIZE_HARD_LIMIT]
  · norm_num [JOB_QUEUE_SIZE_SOFT_LIMIT, JOB_QUEUE_SIZE_HARD_LIMIT]
  · unfold checkQueueCapacity
    rw [if_pos h]
  · norm_num [checkQueueCapacity, JOB_QUEUE_SIZE_SOFT_LIMIT,
      JOB_QUEUE_SIZE_HARD_LIMIT]
  · norm_num [checkQueueCapacity, JOB_QUEUE_SIZE_SOFT_LIMIT,
      JOB_QUEUE_SIZE_HARD_LIMIT]

/-- Witness for C5 at the live count 5000. -/
theorem c5_queueSizeLimits_witness :
    JOB_QUEUE_SIZE_HARD_LIMIT = 5000 ∧
      JOB_QUEUE_SIZE_SOFT_LIMIT = 4000 ∧
      JOB_QUEUE_SIZE_SOFT_LIMIT =
        (JOB_QUEUE_SIZE_HARD_LIMIT : ℚ) * 80 / 100 ∧
      checkQueueCapacity 5000 = SubmitCapacity.rejectedFull ∧
      checkQueueCapacity 4000 = SubmitCapacity.acceptedWithWarning ∧
      checkQueueCapacity 3999 = SubmitCapacity.accepted :=
  c5_queueSizeLimits 5000 (by decide)

/-- C6: drained-queue rejection is atomic — whenever the drain flag is set,
submit fails with the queue-drained error and returns the queue state
completely unchanged: same serial counter, same job records. -/
theorem c6_drainRejectionAtomic (st : QueueState) (ops : List String)
    (h : st.drained = true) :
    (submit st ops).1 = Except.error SubmitError.queueDrained ∧
      (submit st ops).2 = st ∧
      (submit st ops).2.serial = st.serial ∧
      (submit st ops).2.jobs = st.jobs := by
  unfold submit
  simp [h]

/-- Witness for C6 at an empty drained queue. -/
theorem c6_drainRejectionAtomic_witness :
    (submit (QueueState.mk 7 [] true) [OP_STATUS_QUEUED]).1 =
        Except.error SubmitError.queueDrained ∧
      (submit (QueueState.mk 7 [] true) [OP_STATUS_QUEUED]).2 =
        QueueState.mk 7 [] true ∧
      (submit (QueueState.mk 7 [] true) [OP_STATUS_QUEUED]).2.serial =
        (QueueState.mk 7 [] true).serial ∧
      (submit (QueueState.mk 7 [] true) [OP_STATUS_QUEUED]).2.jobs =
        (QueueState.mk 7 [] true).jobs :=
  c6_drainRejectionAtomic (QueueState.mk 7 [] true) [OP_STATUS_QUEUED] rfl
